import Mathlib

/-!
Shallow embedding of the chat resilience layer of the portfolio website
(`src/features/chat`): the error taxonomy (`errorTypes.js`), the circuit
breaker (`circuitBreaker.js`), the transport client (`chatService.js`), the
request-orchestration hook (`useApiClient.js`) and the conversation store
(`ChatContext.js`).  JavaScript strings are Lean `String`s, JS numbers that
matter to the logic are `Nat` (timestamps, lengths) or `Rat` (confidence
scores), and thrown exceptions are `Except` values.  Asynchronous runs are
embedded by passing the externally determined outcome of each network
attempt (and the settle time of each race) as an explicit environment.
-/

set_option maxRecDepth 4096

/-! ### JavaScript primitives -/

/-- The whitespace characters relevant to `String.prototype.trim` for the
ASCII messages this client handles. -/
def jsIsWhitespace (c : Char) : Bool :=
  c = ' ' || c = '\t' || c = '\n' || c = '\r' || c = '\x0b' || c = '\x0c'

/-- `String.prototype.trim`: strip leading and trailing whitespace. -/
def jsTrim (s : String) : String :=
  ⟨((s.toList.dropWhile jsIsWhitespace).reverse.dropWhile jsIsWhitespace).reverse⟩

/-- `String.prototype.toLowerCase` on ASCII text. -/
def jsToLower (s : String) : String :=
  ⟨s.toList.map Char.toLower⟩

/-- The JS `a || d` idiom on an optional number: `0` and a missing value are
falsy and fall through to the default. -/
def jsOrNat (a : Option Nat) (d : Nat) : Nat :=
  match a with
  | some n => if n = 0 then d else n
  | none => d

/-- The JS `a || d` idiom on an optional string: the empty string and a
missing value are falsy and fall through to the default. -/
def jsOrStr (a : Option String) (d : String) : String :=
  match a with
  | some s => if s = "" then d else s
  | none => d

/-- `Array.prototype.slice(-n)`: the last `n` elements (the whole list when
it is shorter than `n`). -/
def jsSliceLast (n : Nat) (l : List α) : List α :=
  l.drop (l.length - n)

/-! ### Error taxonomy (`errorTypes.js`) -/

/-- A thrown JS error, as far as the chat layer discriminates on it: the
class name, the `message`, the informal `code` tag, the HTTP `status` and
the rate-limit `retryAfter` field.  Fields a given error class does not set
are `none`. -/
structure JsError where
  name : String
  message : String
  code : Option String
  status : Option Nat
  retryAfter : Option Nat
deriving DecidableEq, Repr

/-- `new APIError(status, message, code)`. -/
def APIError (status : Nat) (message : String) (code : Option String) : JsError :=
  { name := "APIError", message, code, status := some status, retryAfter := none }

/-- `new RateLimitError(retryAfter)`. -/
def RateLimitError (retryAfter : Option Nat) : JsError :=
  { name := "RateLimitError", message := "Rate limit exceeded",
    code := some "RATE_LIMIT", status := some 429, retryAfter }

/-- `new NetworkError(originalError)`. -/
def NetworkError : JsError :=
  { name := "NetworkError", message := "Network connection failed",
    code := some "NETWORK_ERROR", status := some 0, retryAfter := none }

/-- `new ServiceUnavailableError()`. -/
def ServiceUnavailableError : JsError :=
  { name := "ServiceUnavailableError", message := "Service temporarily unavailable",
    code := some "SERVICE_UNAVAILABLE", status := some 503, retryAfter := none }

/-- `new CircuitBreakerError()`. -/
def CircuitBreakerError : JsError :=
  { name := "CircuitBreakerError", message := "Circuit breaker is open",
    code := some "CIRCUIT_BREAKER_OPEN", status := none, retryAfter := none }

/-- `new TimeoutError()` (the transport client's own timeout). -/
def TimeoutError : JsError :=
  { name := "TimeoutError", message := "Request timed out",
    code := some "TIMEOUT", status := none, retryAfter := none }

/-- `new Error('Circuit breaker timeout')`, thrown by the breaker's internal
timeout race: a plain `Error` with no `code`. -/
def breakerTimeoutError : JsError :=
  { name := "Error", message := "Circuit breaker timeout",
    code := none, status := none, retryAfter := none }

/-- A user-facing handler descriptor from `ERROR_HANDLERS` /
`getErrorHandler`. -/
structure Handler where
  message : String
  action : String
  fallback : Option String
  cooldown : Bool
  recovery : Option String
deriving DecidableEq, Repr

/-- The `ERROR_HANDLERS` table, keyed by error `code`. -/
def ERROR_HANDLERS (key : String) : Option Handler :=
  if key = "NETWORK_ERROR" then
    some { message := "I\x27m having trouble connecting. You can browse the portfolio directly.",
           action := "retry", fallback := some "portfolio_navigation",
           cooldown := false, recovery := none }
  else if key = "RATE_LIMIT" then
    some { message := "I\x27m busy right now. Try these suggested questions or explore the portfolio.",
           action := "show_suggestions", fallback := none,
           cooldown := true, recovery := none }
  else if key = "SERVICE_UNAVAILABLE" then
    some { message := "I\x27m temporarily unavailable. Please use the portfolio sections above.",
           action := "disable_widget", fallback := some "portfolio_focus",
           cooldown := false, recovery := none }
  else if key = "CIRCUIT_BREAKER_OPEN" then
    some { message := "I need a moment to recover. Please try again shortly.",
           action := "disable_input", fallback := none,
           cooldown := false, recovery := some "automatic" }
  else if key = "TIMEOUT" then
    some { message := "That\x27s taking longer than expected. Please try again.",
           action := "retry", fallback := some "show_suggestions",
           cooldown := false, recovery := none }
  else none

/-- The default handler returned for unknown or uncoded errors. -/
def defaultHandler : Handler :=
  { message := "Something went wrong. Please try again or explore the portfolio directly.",
    action := "retry", fallback := some "portfolio_focus",
    cooldown := false, recovery := none }

/-- `getErrorHandler(error)`: look the error's `code` up in
`ERROR_HANDLERS`, falling back to the generic handler.  An empty-string
`code` is falsy in JS and also falls back. -/
def getErrorHandler (e : JsError) : Handler :=
  match e.code with
  | some c => if c = "" then defaultHandler else (ERROR_HANDLERS c).getD defaultHandler
  | none => defaultHandler

/-! ### Circuit breaker (`circuitBreaker.js`) -/

inductive BreakerState where
  | CLOSED
  | OPEN
  | HALF_OPEN
deriving DecidableEq, Repr

/-- The `CircuitBreaker` instance: construction parameters plus mutable
state.  Timestamps are `Nat` milliseconds. -/
structure CircuitBreaker where
  failureThreshold : Nat
  timeout : Nat
  resetTimeout : Nat
  state : BreakerState
  failureCount : Nat
  lastFailureTime : Option Nat
  nextAttempt : Nat
deriving DecidableEq, Repr

namespace CircuitBreaker

/-- `new CircuitBreaker(options)` at time `now`: `options.threshold || 5`,
`options.timeout || 60000`, `options.resetTimeout || 300000`; state starts
`CLOSED` with `failureCount = 0` and `nextAttempt = Date.now()`. -/
def new (threshold tmo resetTmo : Option Nat) (now : Nat) : CircuitBreaker :=
  { failureThreshold := jsOrNat threshold 5
    timeout := jsOrNat tmo 60000
    resetTimeout := jsOrNat resetTmo 300000
    state := .CLOSED
    failureCount := 0
    lastFailureTime := none
    nextAttempt := now }

/-- `_onSuccess()`. -/
def onSuccess (b : CircuitBreaker) : CircuitBreaker :=
  { b with failureCount := 0, state := .CLOSED }

/-- `_onFailure()` at time `now`. -/
def onFailure (b : CircuitBreaker) (now : Nat) : CircuitBreaker :=
  let b' := { b with failureCount := b.failureCount + 1, lastFailureTime := some now }
  if b'.failureThreshold ≤ b'.failureCount then
    { b' with state := .OPEN, nextAttempt := now + b'.resetTimeout }
  else b'

/-- `reset()` at time `now`. -/
def reset (b : CircuitBreaker) (now : Nat) : CircuitBreaker :=
  { b with state := .CLOSED, failureCount := 0, lastFailureTime := none, nextAttempt := now }

end CircuitBreaker

/-- How the race between the wrapped operation and the breaker's internal
timeout settles: the operation resolves, the operation rejects with an
error, or the internal timeout fires first. -/
inductive OpOutcome (α : Type) where
  | ok (r : α)
  | err (e : JsError)
  | breakerTimeout
deriving DecidableEq, Repr

/-- Did the race settle successfully? -/
def OpOutcome.isOk : OpOutcome α → Bool
  | .ok _ => true
  | _ => false

deriving instance DecidableEq for Except

/-- One execution of `CircuitBreaker.call`: whether the wrapped operation
was invoked at all, whether the call transitioned through `HALF_OPEN`, the
value returned or error thrown, and the breaker afterwards. -/
structure CallTrace (α : Type) where
  invoked : Bool
  viaHalfOpen : Bool
  result : Except JsError α
  post : CircuitBreaker
deriving DecidableEq, Repr

/-- `call(fn, ...args)`: the check against `nextAttempt` happens at
`tStart = Date.now()`; the race settles (per `oc`) at `tEnd`, which is when
`_onFailure` timestamps a failure. -/
def CircuitBreaker.call (b : CircuitBreaker) (tStart tEnd : Nat) (oc : OpOutcome α) :
    CallTrace α :=
  if b.state = .OPEN ∧ tStart < b.nextAttempt then
    ⟨false, false, .error CircuitBreakerError, b⟩
  else
    let halfOpen := b.state = .OPEN
    let b1 := if halfOpen then { b with state := .HALF_OPEN } else b
    match oc with
    | .ok r => ⟨true, halfOpen, .ok r, b1.onSuccess⟩
    | .err e => ⟨true, halfOpen, .error e, b1.onFailure tEnd⟩
    | .breakerTimeout => ⟨true, halfOpen, .error breakerTimeoutError, b1.onFailure tEnd⟩

/-! ### Transport client (`chatService.js`) -/

/-- The `CONFIG` object of `chatService.js`. -/
def CONFIG_TIMEOUT : Nat := 30000

def CONFIG_MAX_RETRIES : Nat := 2

def CONFIG_RETRY_DELAY : Nat := 2000

def CONFIG_MAX_MESSAGE_LENGTH : Nat := 800

/-- A source entry of a backend response (passed through unvalidated). -/
structure Source where
  id : String
  type : String
  title : String
  confidence : Rat
deriving DecidableEq, Repr

/-- The `usage` object of a backend response. -/
structure Usage where
  latencyMs : Nat
  model : String
  cached : Bool
deriving DecidableEq, Repr

/-- The `sources` field of a raw 200 body: absent, present but not an
array, or an array. -/
inductive SourcesField where
  | absent
  | nonArray
  | arr (l : List Source)
deriving DecidableEq, Repr

/-- The `confidence` field of a raw 200 body: absent, present but not of
JS type `number`, or a number. -/
inductive NumField where
  | absent
  | nonNumber
  | num (q : Rat)
deriving DecidableEq, Repr

/-- A 200-response body that parsed to a JS object, with the fields
`_validateResponse` inspects. -/
structure RawResponse where
  response : Option String
  text : Option String
  sources : SourcesField
  usage : Option Usage
  confidence : NumField
deriving DecidableEq, Repr

/-- The normalized response `_validateResponse` hands to its caller. -/
structure ChatResponse where
  text : String
  sources : List Source
  usage : Usage
  confidence : Rat
deriving DecidableEq, Repr

/-- `_validateResponse(data)`: `none` stands for a body that parsed to a
non-object (or `null`), which is rejected; an object is normalized
field-by-field. -/
def ChatService.validateResponse (data : Option RawResponse) : Except JsError ChatResponse :=
  match data with
  | none => .error (APIError 500 "Invalid response format" (some "INVALID_RESPONSE"))
  | some d =>
    .ok { text := jsOrStr d.response (jsOrStr d.text "")
          sources := match d.sources with | .arr l => l | _ => []
          usage := d.usage.getD { latencyMs := 0, model := "unknown", cached := false }
          confidence := match d.confidence with | .num q => q | _ => 0 }

/-- How `fetch` settles for one attempt inside `_makeRequest`:
* `httpOk`: a 2xx response; its body either parsed (`some` object /
  `none` for a non-object) or `json()` threw `parseErr`;
* `httpErr`: a non-2xx `status` with the `Retry-After` header, the parsed
  error body's `message` field (`none` when `json()` threw, in which case
  `statusText` is used), and the `statusText`;
* `abortError`: the attempt's own timeout fired and aborted the fetch;
* `fetchTypeError`: a `TypeError` mentioning fetch (connectivity loss);
* `thrown`: any other rejection, rethrown as-is. -/
inductive FetchOutcome where
  | httpOk (body : Option RawResponse) (parsed : Bool) (parseErr : JsError)
  | httpErr (status : Nat) (retryAfterHeader : Option Nat)
      (bodyMessage : Option (Option String)) (statusText : String)
  | abortError
  | fetchTypeError
  | thrown (e : JsError)
deriving DecidableEq, Repr

/-- `_handleHttpError(response)`: classify a non-2xx response.
`bodyMessage = none` models an unparseable body (`errorData` falls back to
`{message: statusText}`); `some m` models a parsed body whose `message`
field is `m`. -/
def ChatService.handleHttpError (status : Nat) (retryAfterHeader : Option Nat)
    (bodyMessage : Option (Option String)) (statusText : String) : JsError :=
  let errMessage : Option String :=
    match bodyMessage with
    | none => some statusText
    | some m => m
  if status = 429 then RateLimitError retryAfterHeader
  else if status = 503 then ServiceUnavailableError
  else if status = 400 then APIError 400 (jsOrStr errMessage "Bad request") (some "BAD_REQUEST")
  else APIError status (jsOrStr errMessage ("HTTP " ++ toString status)) (some "API_ERROR")

/-- `_makeRequest(request)`: the value returned or error thrown for one
attempt, as a function of how its `fetch` settles. -/
def ChatService.makeRequest (fo : FetchOutcome) : Except JsError ChatResponse :=
  match fo with
  | .httpOk body parsed parseErr =>
    if parsed then ChatService.validateResponse body else .error parseErr
  | .httpErr status retryAfterHeader bodyMessage statusText =>
    .error (ChatService.handleHttpError status retryAfterHeader bodyMessage statusText)
  | .abortError => .error TimeoutError
  | .fetchTypeError => .error NetworkError
  | .thrown e => .error e

/-- The environment of one attempt inside `_executeWithRetry`: when the
breaker checks `Date.now()` (`tStart`), when the race settles (`tEnd`), and
whether the operation settled (with its fetch outcome) or the breaker's
internal timeout fired first. -/
structure AttemptEnv where
  tStart : Nat
  tEnd : Nat
  breakerTimeoutFired : Bool
  fetch : FetchOutcome
deriving Repr

/-- The outcome the breaker's race observes for one attempt. -/
def AttemptEnv.outcome (a : AttemptEnv) : OpOutcome ChatResponse :=
  if a.breakerTimeoutFired then .breakerTimeout
  else
    match ChatService.makeRequest a.fetch with
    | .ok r => .ok r
    | .error e => .err e

/-- One attempt routed through `circuitBreaker.call(makeRequest, request)`. -/
def ChatService.attempt (b : CircuitBreaker) (a : AttemptEnv) : CallTrace ChatResponse :=
  b.call a.tStart a.tEnd a.outcome

/-- The observable effects of one `_executeWithRetry` (or `sendMessage`)
run: how many times `circuitBreaker.call` was entered, how many times the
wrapped `_makeRequest` was actually invoked, the backoff delays awaited,
the result, and the breaker afterwards. -/
structure RetryTrace where
  breakerCalls : Nat
  opInvocations : Nat
  delays : List Nat
  result : Except JsError ChatResponse
  breaker : CircuitBreaker
deriving DecidableEq, Repr

/-- The loop body of `_executeWithRetry`: `attempt` is the loop counter,
`remaining = CONFIG.MAX_RETRIES - attempt` iterations are left, and
`lastError` is the last caught error (thrown when the loop exhausts). -/
def ChatService.executeWithRetryGo (env : Nat → AttemptEnv) (b : CircuitBreaker)
    (attempt : Nat) (remaining : Nat) (lastError : JsError) : RetryTrace :=
  match remaining with
  | 0 => ⟨0, 0, [], .error lastError, b⟩
  | r + 1 =>
    let tr := ChatService.attempt b (env attempt)
    let inv : Nat := if tr.invoked then 1 else 0
    match tr.result with
    | .ok v => ⟨1, inv, [], .ok v, tr.post⟩
    | .error e =>
      if e.name = "RateLimitError" ∨ e.code = some "BAD_REQUEST" then
        ⟨1, inv, [], .error e, tr.post⟩
      else if r = 0 then
        ⟨1, inv, [], .error e, tr.post⟩
      else
        let rest := ChatService.executeWithRetryGo env tr.post (attempt + 1) r e
        ⟨1 + rest.breakerCalls, inv + rest.opInvocations,
         CONFIG_RETRY_DELAY * 2 ^ attempt :: rest.delays, rest.result, rest.breaker⟩

/-- `_executeWithRetry(request)`.  The `lastError` seed stands for the
`undefined` a zero-iteration loop would throw; with `CONFIG.MAX_RETRIES = 2`
it is never used. -/
def ChatService.executeWithRetry (env : Nat → AttemptEnv) (b : CircuitBreaker) : RetryTrace :=
  ChatService.executeWithRetryGo env b 0 CONFIG_MAX_RETRIES
    { name := "Error", message := "undefined", code := none, status := none, retryAfter := none }

/-- The mutable fields of the `ChatService` singleton: its breaker and the
`abortController` field the constructor initializes to `null`.  Controllers
are identified by the order of their creation. -/
structure ChatServiceState where
  circuitBreaker : CircuitBreaker
  abortController : Option Nat
deriving DecidableEq, Repr

/-- The `ChatService` constructor at time `now`. -/
def ChatService.init (now : Nat) : ChatServiceState :=
  { circuitBreaker := CircuitBreaker.new (some 5) (some 60000) (some 300000) now
    abortController := none }

/-- A full `sendMessage(request)` run of the transport client, including
the service state afterwards. -/
structure SendTrace where
  breakerCalls : Nat
  opInvocations : Nat
  delays : List Nat
  result : Except JsError ChatResponse
  svc : ChatServiceState
deriving DecidableEq, Repr

/-- `ChatService.sendMessage(request)`: validate the message, then run the
retry loop.  Nothing in the method reads or writes `this.abortController`. -/
def ChatService.sendMessage (svc : ChatServiceState) (message : String)
    (env : Nat → AttemptEnv) : SendTrace :=
  if jsTrim message = "" then
    ⟨0, 0, [], .error (APIError 400 "Message cannot be empty" (some "BAD_REQUEST")), svc⟩
  else if CONFIG_MAX_MESSAGE_LENGTH < message.length then
    ⟨0, 0, [],
     .error (APIError 400
       ("Message too long (max " ++ toString CONFIG_MAX_MESSAGE_LENGTH ++ " characters)")
       (some "BAD_REQUEST")), svc⟩
  else
    let tr := ChatService.executeWithRetry env svc.circuitBreaker
    ⟨tr.breakerCalls, tr.opInvocations, tr.delays, tr.result,
     { svc with circuitBreaker := tr.breaker }⟩

/-- The `AbortController`s a `sendMessage` run aborts, by creation index:
each `_makeRequest` attempt creates a fresh local controller (ids counted
from `firstId`) and the only `abort()` in the module is the one its own
timeout timer calls, which is the `abortError` fetch outcome. -/
def ChatService.sendAborts : Nat → List FetchOutcome → List Nat
  | _, [] => []
  | i, fo :: rest =>
    (if fo = .abortError then [i] else []) ++ ChatService.sendAborts (i + 1) rest

/-! ### Request orchestration hook (`useApiClient.js`) -/

/-- The `error` state value the hook stores on failure:
`{...errorHandler, originalError: err}`. -/
structure ErrorValue where
  handler : Handler
  originalError : JsError
deriving DecidableEq, Repr

/-- The request object the hook hands to `chatService.sendMessage`. -/
structure ChatRequest where
  sessionId : String
  message : String
  history : List (String × String)
  topK : Nat
  maxTokens : Nat
deriving DecidableEq, Repr

/-- The hook's piece of React state. -/
structure ApiClientState where
  isLoading : Bool
  error : Option ErrorValue
  isConnected : Bool
  sessionId : String
deriving DecidableEq, Repr

/-- One `useApiClient.sendMessage(message, history)` run: the request
handed to the transport client (`none` when the hook threw before calling
it), the value or error propagated to the caller, the hook state after the
run settles, and the transport-side effects. -/
structure HookTrace where
  request : Option ChatRequest
  result : Except JsError ChatResponse
  stateAfter : ApiClientState
  svcAfter : ChatServiceState
  breakerCalls : Nat
  opInvocations : Nat
deriving DecidableEq, Repr

/-- `useApiClient.sendMessage(message, history)`: reject an empty message
with a plain `Error` before touching any state, otherwise set
`isLoading`/clear `error`, call `chatService.sendMessage` with the trimmed
message and the last 6 history entries, and translate the outcome into
hook state. -/
def useApiClient.sendMessage (st : ApiClientState) (svc : ChatServiceState)
    (message : String) (history : List (String × String)) (env : Nat → AttemptEnv) :
    HookTrace :=
  if jsTrim message = "" then
    { request := none
      result := .error { name := "Error", message := "Message cannot be empty",
                         code := none, status := none, retryAfter := none }
      stateAfter := st, svcAfter := svc, breakerCalls := 0, opInvocations := 0 }
  else
    let req : ChatRequest :=
      { sessionId := st.sessionId, message := jsTrim message,
        history := jsSliceLast 6 history, topK := 4, maxTokens := 256 }
    let tr := ChatService.sendMessage svc req.message env
    match tr.result with
    | .ok r =>
      { request := some req, result := .ok r
        stateAfter := { st with isLoading := false, error := none, isConnected := true }
        svcAfter := tr.svc, breakerCalls := tr.breakerCalls, opInvocations := tr.opInvocations }
    | .error e =>
      { request := some req, result := .error e
        stateAfter :=
          { st with isLoading := false
                    error := some { handler := getErrorHandler e, originalError := e }
                    isConnected :=
                      if e.code = some "NETWORK_ERROR" ∨ e.code = some "SERVICE_UNAVAILABLE"
                      then false else st.isConnected }
        svcAfter := tr.svc, breakerCalls := tr.breakerCalls, opInvocations := tr.opInvocations }

/-! ### Conversation store (`ChatContext.js`) -/

/-- A message in the conversation store, with the fields `addMessage` is
given on each of its call sites (a field a call site does not pass is its
JS-falsy default). -/
structure ChatMessage where
  role : String
  content : String
  sources : List Source
  confidence : Rat
  usage : Option Usage
  isError : Bool
  isAutomatic : Bool
deriving DecidableEq, Repr

/-- The greeting patterns of `getGreetingResponse`; each is a `^…$`-anchored
literal, so a test is equality with the lower-cased trimmed message. -/
def greetingStrings : List String :=
  ["hi", "hello", "hey", "good morning", "good afternoon", "good evening",
   "hi there", "hello there", "hey there", "hi how are you",
   "hello how are you", "hey how are you", "how are you",
   "how are you doing", "how\x27s it going", "what\x27s up", "whats up",
   "howdy", "greetings"]

/-- The fixed automatic reply returned for a greeting. -/
def greetingReply : String :=
  "Hello! I\x27m Giuseppe\x27s AI assistant. I\x27m here to help you learn about his background, skills, and experience in AI and engineering. Feel free to ask me anything about his education, projects, or technical expertise. You can also click on the suggested questions below to get started!"

/-- `getGreetingResponse(message)`. -/
def getGreetingResponse (message : String) : Option String :=
  let lowerMessage := jsTrim (jsToLower message)
  if greetingStrings.contains lowerMessage then some greetingReply else none

/-- The fixed apology used when the `error` state captured by the
`sendMessage` closure is `null` (or has a falsy `message`). -/
def apologyText : String :=
  "I\x27m sorry, I couldn\x27t process that message. Please try again."

/-- The state visible to `ChatProvider`: the message list plus the hook's
state and the `chatService` singleton. -/
structure ChatContextState where
  messages : List ChatMessage
  api : ApiClientState
  svc : ChatServiceState
deriving DecidableEq, Repr

/-- Effects of one store-level `sendMessage` observable to the claims. -/
structure ContextTrace where
  request : Option ChatRequest
  breakerCalls : Nat
  opInvocations : Nat
deriving DecidableEq, Repr

/-- A user message appended by `addMessage({role: 'user', content})`. -/
def mkUserMessage (content : String) : ChatMessage :=
  { role := "user", content, sources := [], confidence := 0, usage := none,
    isError := false, isAutomatic := false }

/-- The automatic greeting reply appended by `addMessage`. -/
def mkAutomaticMessage (content : String) : ChatMessage :=
  { role := "assistant", content, sources := [], confidence := 0, usage := none,
    isError := false, isAutomatic := true }

/-- The assistant message built from a normalized response. -/
def mkAssistantMessage (r : ChatResponse) : ChatMessage :=
  { role := "assistant", content := r.text, sources := r.sources,
    confidence := if r.confidence = 0 then 0 else r.confidence, usage := some r.usage,
    isError := false, isAutomatic := false }

/-- The `isError` fallback message appended in the `catch` branch.  Its
content reads the `error` React state captured by the closure when the
callback was created — the value from before this send — not the handler
of the error that was just thrown. -/
def mkErrorMessage (snapError : Option ErrorValue) : ChatMessage :=
  { role := "assistant"
    content := match snapError with
               | some ev => if ev.handler.message = "" then apologyText else ev.handler.message
               | none => apologyText
    sources := [], confidence := 0, usage := none, isError := true, isAutomatic := false }

/-- `ChatProvider.sendMessage(message)`.  The invoked closure is the one
from the latest render, so the `messages` and `error` it captured are the
store state at call time (`st.messages`, `st.api.error`); state updates
made while it runs do not change those captured values. -/
def ChatProvider.sendMessage (st : ChatContextState) (message : String)
    (env : Nat → AttemptEnv) : ChatContextState × ContextTrace :=
  if jsTrim message = "" then
    (st, ⟨none, 0, 0⟩)
  else
    -- clearError(); addMessage({role: 'user', content: message.trim()})
    let st1 : ChatContextState :=
      { st with api := { st.api with error := none }
                messages := st.messages ++ [mkUserMessage (jsTrim message)] }
    match getGreetingResponse (jsTrim message) with
    | some resp =>
      ({ st1 with messages := st1.messages ++ [mkAutomaticMessage resp] }, ⟨none, 0, 0⟩)
    | none =>
      -- history is built from the captured message list (before the append)
      let history := st.messages.map fun m => (m.role, m.content)
      let hk := useApiClient.sendMessage st1.api st.svc message history env
      let reply : ChatMessage :=
        match hk.result with
        | .ok r => mkAssistantMessage r
        | .error _ => mkErrorMessage st.api.error
      ({ messages := st1.messages ++ [reply], api := hk.stateAfter, svc := hk.svcAfter },
       ⟨hk.request, hk.breakerCalls, hk.opInvocations⟩)

/-! ### Reachability invariant of the breaker -/

/-- States the breaker can rest in between calls: `HALF_OPEN` is transient
(it only exists inside `call`), and an `OPEN` breaker got there with
`failureCount ≥ failureThreshold` (only a success resets the count). -/
def BreakerInv (b : CircuitBreaker) : Prop :=
  b.state ≠ .HALF_OPEN ∧ (b.state = .OPEN → b.failureThreshold ≤ b.failureCount)

theorem breakerInv_new (threshold tmo resetTmo : Option Nat) (now : Nat) :
    BreakerInv (CircuitBreaker.new threshold tmo resetTmo now) := by
  constructor <;> simp [CircuitBreaker.new]

theorem breakerInv_reset (b : CircuitBreaker) (now : Nat) : BreakerInv (b.reset now) := by
  constructor <;> simp [CircuitBreaker.reset]

theorem breakerInv_call (b : CircuitBreaker) (t1 t2 : Nat) (oc : OpOutcome ChatResponse)
    (h : BreakerInv b) : BreakerInv (b.call t1 t2 oc).post := by
  obtain ⟨h1, h2⟩ := h
  by_cases hg : b.state = .OPEN ∧ t1 < b.nextAttempt
  · simpa [CircuitBreaker.call, hg] using ⟨h1, h2⟩
  · cases oc <;>
      simp only [CircuitBreaker.call, if_neg hg, CircuitBreaker.onSuccess,
        CircuitBreaker.onFailure, BreakerInv] <;>
      split_ifs <;> simp_all <;> omega

/-- C1: the breaker's state evolves exactly per the specified machine.  For
every breaker in a reachable resting state (`BreakerInv`), every call time
`t1`, settle time `t2` and race outcome `oc`:
the constructor starts in `CLOSED`; a failure that brings `failureCount` to
at least `failureThreshold` sets `state = OPEN` and
`nextAttempt = now + resetTimeout` (where `now` is the failure time); a call
made while `OPEN` at `t1 ≥ nextAttempt` transitions through `HALF_OPEN` and
invokes the operation; success of that probe yields `CLOSED` with
`failureCount = 0`; failure of that probe returns the breaker to `OPEN`; a
call while `OPEN` at `t1 < nextAttempt` changes nothing; from `CLOSED`, a
success stays `CLOSED` with `failureCount = 0` and a sub-threshold failure
stays `CLOSED` merely counting it; and no other transitions occur (the
post-state again satisfies `BreakerInv`, in particular it is never left in
`HALF_OPEN`). -/
theorem circuitBreaker_state_machine (b : CircuitBreaker) (t1 t2 : Nat)
    (oc : OpOutcome ChatResponse) (hInv : BreakerInv b) :
    ((CircuitBreaker.new (some 5) (some 60000) (some 300000) 0).state = .CLOSED ∧
      (CircuitBreaker.new (some 5) (some 60000) (some 300000) 0).failureCount = 0) ∧
    (¬(b.state = .OPEN ∧ t1 < b.nextAttempt) → oc.isOk = false →
      b.failureThreshold ≤ b.failureCount + 1 →
      (b.call t1 t2 oc).post.state = .OPEN ∧
      (b.call t1 t2 oc).post.nextAttempt = t2 + b.resetTimeout) ∧
    (b.state = .OPEN → b.nextAttempt ≤ t1 →
      (b.call t1 t2 oc).viaHalfOpen = true ∧ (b.call t1 t2 oc).invoked = true) ∧
    (b.state = .OPEN → b.nextAttempt ≤ t1 → oc.isOk = true →
      (b.call t1 t2 oc).post.state = .CLOSED ∧ (b.call t1 t2 oc).post.failureCount = 0) ∧
    (b.state = .OPEN → b.nextAttempt ≤ t1 → oc.isOk = false →
      (b.call t1 t2 oc).post.state = .OPEN) ∧
    (b.state = .OPEN → t1 < b.nextAttempt →
      (b.call t1 t2 oc).invoked = false ∧ (b.call t1 t2 oc).post = b) ∧
    (b.state = .CLOSED → oc.isOk = true →
      (b.call t1 t2 oc).post.state = .CLOSED ∧ (b.call t1 t2 oc).post.failureCount = 0) ∧
    (b.state = .CLOSED → oc.isOk = false → b.failureCount + 1 < b.failureThreshold →
      (b.call t1 t2 oc).post.state = .CLOSED ∧
      (b.call t1 t2 oc).post.failureCount = b.failureCount + 1 ∧
      (b.call t1 t2 oc).post.nextAttempt = b.nextAttempt) ∧
    BreakerInv (b.call t1 t2 oc).post := by
  obtain ⟨hHO, hTh⟩ := hInv
  refine ⟨⟨rfl, rfl⟩, ?_, ?_, ?_, ?_, ?_, ?_, ?_, breakerInv_call b t1 t2 oc ⟨hHO, hTh⟩⟩
  · intro hg hfail hth
    cases oc with
    | ok r => simp [OpOutcome.isOk] at hfail
    | err e =>
      simp only [CircuitBreaker.call, if_neg hg, CircuitBreaker.onFailure]
      split_ifs with h1 <;> exact ⟨rfl, rfl⟩
    | breakerTimeout =>
      simp only [CircuitBreaker.call, if_neg hg, CircuitBreaker.onFailure]
      split_ifs with h1 <;> exact ⟨rfl, rfl⟩
  · intro hO ht
    have hnlt : ¬ t1 < b.nextAttempt := by omega
    cases oc <;> simp [CircuitBreaker.call, hO, hnlt]
  · intro hO ht hok
    have hnlt : ¬ t1 < b.nextAttempt := by omega
    cases oc with
    | ok r => simp [CircuitBreaker.call, hO, hnlt, CircuitBreaker.onSuccess]
    | err e => simp [OpOutcome.isOk] at hok
    | breakerTimeout => simp [OpOutcome.isOk] at hok
  · intro hO ht hfail
    have hnlt : ¬ t1 < b.nextAttempt := by omega
    have hcnt := hTh hO
    cases oc with
    | ok r => simp [OpOutcome.isOk] at hfail
    | err e =>
      simp [CircuitBreaker.call, hO, hnlt, CircuitBreaker.onFailure]
      split_ifs with h
      · simp
      · omega
    | breakerTimeout =>
      simp [CircuitBreaker.call, hO, hnlt, CircuitBreaker.onFailure]
      split_ifs with h
      · simp
      · omega
  · intro hO ht
    simp [CircuitBreaker.call, hO, ht]
  · intro hC hok
    have hC' : b.state ≠ .OPEN := by simp [hC]
    cases oc with
    | ok r => simp [CircuitBreaker.call, hC, hC', CircuitBreaker.onSuccess]
    | err e => simp [OpOutcome.isOk] at hok
    | breakerTimeout => simp [OpOutcome.isOk] at hok
  · intro hC hfail hlt
    have hC' : b.state ≠ .OPEN := by simp [hC]
    have hle : ¬ b.failureThreshold ≤ b.failureCount + 1 := by omega
    cases oc with
    | ok r => simp [OpOutcome.isOk] at hfail
    | err e => simp [CircuitBreaker.call, hC, hC', CircuitBreaker.onFailure, hle]
    | breakerTimeout => simp [CircuitBreaker.call, hC, hC', CircuitBreaker.onFailure, hle]

/-- An OPEN breaker as produced by five failures at time 100 with the
service's construction parameters. -/
def openBreakerEx : CircuitBreaker :=
  { failureThreshold := 5, timeout := 60000, resetTimeout := 300000,
    state := .OPEN, failureCount := 5, lastFailureTime := some 100,
    nextAttempt := 300100 }

def sampleResponse : ChatResponse :=
  { text := "Python, ML.", sources := [], usage := { latencyMs := 0, model := "unknown", cached := false },
    confidence := 0 }

/-- Witness for C1: a probe at `t1 = 500000 ≥ nextAttempt` of the OPEN
breaker that succeeds resets it to `CLOSED` with `failureCount = 0`. -/
theorem circuitBreaker_state_machine_witness :
    BreakerInv openBreakerEx ∧
    (openBreakerEx.call 500000 500001 (OpOutcome.ok sampleResponse)).post.state = .CLOSED ∧
    (openBreakerEx.call 500000 500001 (OpOutcome.ok sampleResponse)).post.failureCount = 0 :=
  ⟨by constructor <;> decide,
   (circuitBreaker_state_machine openBreakerEx 500000 500001 (OpOutcome.ok sampleResponse)
     (by constructor <;> decide)).2.2.2.1 rfl (by decide) rfl⟩

/-- C2: a `call` made while the breaker is `OPEN` strictly before
`nextAttempt` does not invoke the wrapped operation, throws
`CircuitBreakerError`, and leaves the whole breaker state — in particular
`failureCount`, `lastFailureTime` and `nextAttempt` — unchanged. -/
theorem circuitBreaker_fast_fail_no_side_effects (b : CircuitBreaker) (t1 t2 : Nat)
    (oc : OpOutcome ChatResponse) (hs : b.state = .OPEN) (ht : t1 < b.nextAttempt) :
    (b.call t1 t2 oc).invoked = false ∧
    (b.call t1 t2 oc).result = .error CircuitBreakerError ∧
    (b.call t1 t2 oc).post = b ∧
    (b.call t1 t2 oc).post.failureCount = b.failureCount ∧
    (b.call t1 t2 oc).post.lastFailureTime = b.lastFailureTime ∧
    (b.call t1 t2 oc).post.nextAttempt = b.nextAttempt := by
  simp [CircuitBreaker.call, hs, ht]

/-- Witness for C2 at a concrete OPEN breaker and a call 100ms before
`nextAttempt`. -/
theorem circuitBreaker_fast_fail_no_side_effects_witness :
    (openBreakerEx.call 300000 300001 (OpOutcome.err NetworkError : OpOutcome ChatResponse)).invoked = false ∧
    (openBreakerEx.call 300000 300001 (OpOutcome.err NetworkError : OpOutcome ChatResponse)).result =
      .error CircuitBreakerError ∧
    (openBreakerEx.call 300000 300001 (OpOutcome.err NetworkError : OpOutcome ChatResponse)).post = openBreakerEx ∧
    (openBreakerEx.call 300000 300001 (OpOutcome.err NetworkError : OpOutcome ChatResponse)).post.failureCount =
      openBreakerEx.failureCount ∧
    (openBreakerEx.call 300000 300001 (OpOutcome.err NetworkError : OpOutcome ChatResponse)).post.lastFailureTime =
      openBreakerEx.lastFailureTime ∧
    (openBreakerEx.call 300000 300001 (OpOutcome.err NetworkError : OpOutcome ChatResponse)).post.nextAttempt =
      openBreakerEx.nextAttempt :=
  circuitBreaker_fast_fail_no_side_effects openBreakerEx 300000 300001
    (OpOutcome.err NetworkError : OpOutcome ChatResponse) rfl (by decide)

/-- C9: the per-attempt request timeout (`CONFIG.TIMEOUT = 30000`) and the
breaker's internal call-timeout (constructed as 60000 in the `ChatService`
constructor) are both finite positive constants, the per-attempt timeout is
strictly shorter, and the two timeout failures carry distinguishable error
kinds: the per-attempt abort surfaces as `TimeoutError` (name
`TimeoutError`, code `TIMEOUT`) while the breaker's internal timeout
surfaces as a plain `Error` with message `Circuit breaker timeout` and no
code. -/
theorem timeouts_distinct_and_ordered (now t1 t2 : Nat) :
    CONFIG_TIMEOUT = 30000 ∧
    (ChatService.init now).circuitBreaker.timeout = 60000 ∧
    0 < CONFIG_TIMEOUT ∧
    CONFIG_TIMEOUT < (ChatService.init now).circuitBreaker.timeout ∧
    ChatService.makeRequest .abortError = .error TimeoutError ∧
    ((ChatService.init now).circuitBreaker.call t1 t2
        (.breakerTimeout : OpOutcome ChatResponse)).result = .error breakerTimeoutError ∧
    TimeoutError.name ≠ breakerTimeoutError.name ∧
    TimeoutError.code = some "TIMEOUT" ∧
    breakerTimeoutError.code = none := by
  refine ⟨rfl, rfl, by decide,
    by norm_num [CONFIG_TIMEOUT, ChatService.init, CircuitBreaker.new, jsOrNat],
    rfl, ?_, by decide, rfl, rfl⟩
  simp [CircuitBreaker.call, ChatService.init, CircuitBreaker.new, jsOrNat,
    CircuitBreaker.onFailure]

/-- C5: a message that is empty/whitespace-only, or longer than 800
characters, is rejected by `ChatService.sendMessage` with a
`BAD_REQUEST`-coded `APIError` carrying the matching message text, before
any network activity: the wrapped operation is never invoked, the breaker
is never entered, and the whole service state (breaker included) is
unchanged. -/
theorem validation_short_circuit (svc : ChatServiceState) (message : String)
    (env : Nat → AttemptEnv)
    (h : jsTrim message = "" ∨ CONFIG_MAX_MESSAGE_LENGTH < message.length) :
    (ChatService.sendMessage svc message env).result =
      .error (APIError 400
        (if jsTrim message = "" then "Message cannot be empty"
         else "Message too long (max 800 characters)") (some "BAD_REQUEST")) ∧
    (ChatService.sendMessage svc message env).opInvocations = 0 ∧
    (ChatService.sendMessage svc message env).breakerCalls = 0 ∧
    (ChatService.sendMessage svc message env).svc = svc := by
  by_cases he : jsTrim message = ""
  · simp [ChatService.sendMessage, he]
  · have hl : CONFIG_MAX_MESSAGE_LENGTH < message.length := h.resolve_left he
    rw [if_neg he]
    unfold ChatService.sendMessage
    rw [if_neg he, if_pos hl]
    exact ⟨rfl, rfl, rfl, rfl⟩

/-- Witness for C5: a whitespace-only message is rejected with the
empty-message error and zero transport activity. -/
theorem validation_short_circuit_witness :
    (ChatService.sendMessage (ChatService.init 0) "   " (fun _ => ⟨0, 0, false, .fetchTypeError⟩)).result =
      .error (APIError 400
        (if jsTrim "   " = "" then "Message cannot be empty"
         else "Message too long (max 800 characters)") (some "BAD_REQUEST")) ∧
    (ChatService.sendMessage (ChatService.init 0) "   " (fun _ => ⟨0, 0, false, .fetchTypeError⟩)).opInvocations = 0 ∧
    (ChatService.sendMessage (ChatService.init 0) "   " (fun _ => ⟨0, 0, false, .fetchTypeError⟩)).breakerCalls = 0 ∧
    (ChatService.sendMessage (ChatService.init 0) "   " (fun _ => ⟨0, 0, false, .fetchTypeError⟩)).svc = ChatService.init 0 :=
  validation_short_circuit (ChatService.init 0) "   " (fun _ => ⟨0, 0, false, .fetchTypeError⟩)
    (Or.inl (by decide))

/-- An attempt environment in which every breaker call happens while
`openBreakerEx` is still within its `nextAttempt` window (0ms and 2000ms,
both before 300100ms), so each one fast-fails with `CircuitBreakerError`. -/
def fastFailEnv : Nat → AttemptEnv := fun n => ⟨2000 * n, 2000 * n, false, .fetchTypeError⟩

/-- Counterexample to C3: with the breaker OPEN, `_executeWithRetry` does
NOT propagate `CircuitBreakerError` after one attempt: it enters the
breaker twice, sleeps the 2000ms backoff between the two fast-fails, and
only then rethrows — `CircuitBreakerError` is retried like a transient
error, with backoff, contradicting the claimed fail-fast. -/
theorem circuitBreakerError_is_retried :
    (ChatService.executeWithRetry fastFailEnv openBreakerEx).breakerCalls = 2 ∧
    (ChatService.executeWithRetry fastFailEnv openBreakerEx).opInvocations = 0 ∧
    (ChatService.executeWithRetry fastFailEnv openBreakerEx).delays = [2000] ∧
    (ChatService.executeWithRetry fastFailEnv openBreakerEx).result =
      .error CircuitBreakerError := by
  refine ⟨rfl, rfl, rfl, rfl⟩

/-- The last iteration of the retry loop performs exactly one breaker call
and never sleeps. -/
theorem executeWithRetryGo_last (env : Nat → AttemptEnv) (b : CircuitBreaker)
    (attempt : Nat) (lastError : JsError) :
    (ChatService.executeWithRetryGo env b attempt 1 lastError).breakerCalls = 1 ∧
    (ChatService.executeWithRetryGo env b attempt 1 lastError).delays = [] := by
  simp only [ChatService.executeWithRetryGo]
  split
  · simp
  · split_ifs <;> simp

/-- C3 as amended: with `MAX_RETRIES = 2`, when the first attempt fails
with `RateLimitError` or any `BAD_REQUEST`-coded error, the loop stops at
one attempt with no backoff and propagates that error; when the first
attempt fails with ANY other error — `NetworkError`, `TimeoutError`,
generic `APIError`, but also `CircuitBreakerError` — a second attempt is
made after the `RETRY_DELAY * 2^0` backoff. -/
theorem retry_policy (b : CircuitBreaker) (env : Nat → AttemptEnv) (e : JsError)
    (h : (ChatService.attempt b (env 0)).result = .error e) :
    (e.name = "RateLimitError" ∨ e.code = some "BAD_REQUEST" →
      ChatService.executeWithRetry env b =
        ⟨1, if (ChatService.attempt b (env 0)).invoked then 1 else 0, [], .error e,
         (ChatService.attempt b (env 0)).post⟩) ∧
    (¬(e.name = "RateLimitError" ∨ e.code = some "BAD_REQUEST") →
      (ChatService.executeWithRetry env b).breakerCalls = 2 ∧
      (ChatService.executeWithRetry env b).delays = [CONFIG_RETRY_DELAY * 2 ^ 0]) := by
  constructor
  · intro hnr
    show ChatService.executeWithRetryGo env b 0 2 _ = _
    simp only [ChatService.executeWithRetryGo, h, if_pos hnr]
  · intro hr
    show (ChatService.executeWithRetryGo env b 0 2 _).breakerCalls = 2 ∧
      (ChatService.executeWithRetryGo env b 0 2 _).delays = [CONFIG_RETRY_DELAY * 2 ^ 0]
    simp only [ChatService.executeWithRetryGo, h, if_neg hr]
    cases h2 : (ChatService.attempt (ChatService.attempt b (env 0)).post (env 1)).result with
    | ok v => simp [h2]
    | error e2 => simp [h2]

/-- An environment whose first attempt hits HTTP 429 with a `Retry-After`
of 60 seconds. -/
def rateLimitEnv : Nat → AttemptEnv :=
  fun _ => ⟨0, 10, false, .httpErr 429 (some 60) (some (some "Rate limit exceeded")) "Too Many Requests"⟩

/-- Witness for the amended C3: a 429 on the first attempt stops the loop
after exactly one breaker call, with no backoff, propagating the
`RateLimitError`. -/
theorem retry_policy_witness :
    ChatService.executeWithRetry rateLimitEnv (ChatService.init 0).circuitBreaker =
      ⟨1,
       if (ChatService.attempt (ChatService.init 0).circuitBreaker (rateLimitEnv 0)).invoked
       then 1 else 0,
       [], .error (RateLimitError (some 60)),
       (ChatService.attempt (ChatService.init 0).circuitBreaker (rateLimitEnv 0)).post⟩ :=
  (retry_policy (ChatService.init 0).circuitBreaker rateLimitEnv (RateLimitError (some 60))
    rfl).1 (Or.inl rfl)

/-- A 200 body that parsed to an object carrying none of the optional
fields. -/
def rawAllMissing : RawResponse :=
  { response := none, text := none, sources := .absent, usage := none, confidence := .absent }

/-- C8: `_validateResponse` never throws on a body that parsed to an
object, and it defaults a missing `sources` to `[]`, a missing or
non-numeric `confidence` to `0`, and a missing `usage` to the zeroed
placeholder `{latencyMs: 0, model: 'unknown', cached: false}`. -/
theorem response_normalization (raw : RawResponse) :
    ∃ r, ChatService.validateResponse (some raw) = .ok r ∧
      (raw.sources = .absent → r.sources = []) ∧
      (raw.confidence = .absent ∨ raw.confidence = .nonNumber → r.confidence = 0) ∧
      (raw.usage = none → r.usage = { latencyMs := 0, model := "unknown", cached := false }) := by
  refine ⟨_, rfl, ?_, ?_, ?_⟩
  · intro h; simp [h]
  · rintro (h | h) <;> simp [h]
  · intro h; simp [h]

/-- Witness for C8 at the body with every optional field missing. -/
theorem response_normalization_witness :
    ∃ r, ChatService.validateResponse (some rawAllMissing) = .ok r ∧
      r.sources = [] ∧ r.confidence = 0 ∧
      r.usage = { latencyMs := 0, model := "unknown", cached := false } := by
  obtain ⟨r, hr, h1, h2, h3⟩ := response_normalization rawAllMissing
  exact ⟨r, hr, h1 rfl, h2 (Or.inl rfl), h3 rfl⟩

/-- Every controller a `sendMessage` run can abort was created by that run:
its id is at least the run's first fresh id. -/
theorem sendAborts_lower_bound (j : Nat) (fos : List FetchOutcome) :
    ∀ i, j ∈ ChatService.sendAborts i fos → i ≤ j := by
  induction fos with
  | nil => intro i hj; simp [ChatService.sendAborts] at hj
  | cons fo rest ih =>
    intro i hj
    simp only [ChatService.sendAborts, List.mem_append] at hj
    rcases hj with hj | hj
    · by_cases hfo : fo = .abortError
      · simp [hfo] at hj; omega
      · simp [hfo] at hj
    · exact Nat.le_of_succ_le (ih (i + 1) hj)

/-- C4 (documenting the code bug): `ChatService` performs no supersession
abort at all.  `sendMessage` never touches the `abortController` field (it
stays exactly what it was; the constructor sets it to `null` and nothing
ever reassigns it), and the only `abort()` calls in a run are those of the
run's own per-attempt timeout timers, whose controllers are created by this
very run — so the controller of a request already in flight (created
earlier, id `prevId < firstId`) is never aborted. -/
theorem no_supersession_abort (svc : ChatServiceState) (message : String)
    (env : Nat → AttemptEnv) (prevId firstId : Nat) (fos : List FetchOutcome)
    (h : prevId < firstId) :
    (ChatService.sendMessage svc message env).svc.abortController = svc.abortController ∧
    (ChatService.init 0).abortController = none ∧
    prevId ∉ ChatService.sendAborts firstId fos := by
  refine ⟨?_, rfl, fun hmem =>
    absurd (sendAborts_lower_bound prevId fos firstId hmem) (by omega)⟩
  unfold ChatService.sendMessage
  split_ifs <;> rfl

/-- Witness for C4: a second send (controllers numbered from 1) never
aborts controller 0 of the in-flight first send, even when both of its own
attempts time out and abort their own controllers. -/
theorem no_supersession_abort_witness :
    (ChatService.sendMessage (ChatService.init 0) "Hello" fastFailEnv).svc.abortController =
      (ChatService.init 0).abortController ∧
    (ChatService.init 0).abortController = none ∧
    0 ∉ ChatService.sendAborts 1 [.abortError, .abortError] :=
  no_supersession_abort (ChatService.init 0) "Hello" fastFailEnv 0 1
    [.abortError, .abortError] (by decide)

/-- C10: a message whose trimmed, lower-cased text is one of the fixed
greeting patterns makes the store's `sendMessage` append the user message
and the fixed automatic reply (flagged `isAutomatic`), and return without
handing anything to the transport client: no request is built, the breaker
is never entered, the wrapped network operation is never invoked, and the
whole `chatService` state (breaker included) is unchanged. -/
theorem greeting_short_circuit (st : ChatContextState) (message : String)
    (env : Nat → AttemptEnv)
    (h : greetingStrings.contains (jsTrim (jsToLower (jsTrim message))) = true) :
    (ChatProvider.sendMessage st message env).1.messages =
      st.messages ++ [mkUserMessage (jsTrim message), mkAutomaticMessage greetingReply] ∧
    (mkAutomaticMessage greetingReply).isAutomatic = true ∧
    (mkAutomaticMessage greetingReply).content = greetingReply ∧
    (ChatProvider.sendMessage st message env).2.request = none ∧
    (ChatProvider.sendMessage st message env).2.breakerCalls = 0 ∧
    (ChatProvider.sendMessage st message env).2.opInvocations = 0 ∧
    (ChatProvider.sendMessage st message env).1.svc = st.svc := by
  have hne : jsTrim message ≠ "" := by
    intro he
    have h0 : jsTrim (jsToLower (jsTrim message)) = "" := by rw [he]; rfl
    rw [h0] at h
    exact absurd h (by decide)
  have hgr : getGreetingResponse (jsTrim message) = some greetingReply := by
    unfold getGreetingResponse
    rw [if_pos h]
  simp [ChatProvider.sendMessage, hne, hgr, mkAutomaticMessage]

def emptyChatState : ChatContextState :=
  { messages := []
    api := { isLoading := false, error := none, isConnected := true, sessionId := "session" }
    svc := ChatService.init 0 }

/-- Witness for C10 at the concrete greeting `"  Hello  "`. -/
theorem greeting_short_circuit_witness :
    (ChatProvider.sendMessage emptyChatState "  Hello  " fastFailEnv).1.messages =
      emptyChatState.messages ++
        [mkUserMessage (jsTrim "  Hello  "), mkAutomaticMessage greetingReply] ∧
    (mkAutomaticMessage greetingReply).isAutomatic = true ∧
    (mkAutomaticMessage greetingReply).content = greetingReply ∧
    (ChatProvider.sendMessage emptyChatState "  Hello  " fastFailEnv).2.request = none ∧
    (ChatProvider.sendMessage emptyChatState "  Hello  " fastFailEnv).2.breakerCalls = 0 ∧
    (ChatProvider.sendMessage emptyChatState "  Hello  " fastFailEnv).2.opInvocations = 0 ∧
    (ChatProvider.sendMessage emptyChatState "  Hello  " fastFailEnv).1.svc = emptyChatState.svc :=
  greeting_short_circuit emptyChatState "  Hello  " fastFailEnv (by decide)

theorem jsSliceLast_map (f : α → β) (n : Nat) (l : List α) :
    jsSliceLast n (l.map f) = (jsSliceLast n l).map f := by
  simp [jsSliceLast, List.map_drop]

/-- C7: on the non-greeting send path, the request handed to the transport
client carries as `history` exactly the last 6 entries of the store's
message list (the list the invoked closure captured), in their original
order, each mapped to a `(role, content)` pair; for a 10-message
conversation that history has length exactly 6 and equals the last 6
messages. -/
theorem history_trimming (st : ChatContextState) (message : String)
    (env : Nat → AttemptEnv) (hne : jsTrim message ≠ "")
    (hg : getGreetingResponse (jsTrim message) = none) :
    ∃ req, (ChatProvider.sendMessage st message env).2.request = some req ∧
      req.history = jsSliceLast 6 (st.messages.map fun m => (m.role, m.content)) ∧
      req.history = (jsSliceLast 6 st.messages).map (fun m => (m.role, m.content)) ∧
      (st.messages.length = 10 →
        req.history.length = 6 ∧
        req.history = (st.messages.drop 4).map fun m => (m.role, m.content)) := by
  refine ⟨{ sessionId := st.api.sessionId, message := jsTrim message,
            history := jsSliceLast 6 (st.messages.map fun m => (m.role, m.content)),
            topK := 4, maxTokens := 256 }, ?_, rfl, jsSliceLast_map _ 6 st.messages, ?_⟩
  · unfold ChatProvider.sendMessage useApiClient.sendMessage
    rw [if_neg hne, hg]
    simp only [if_neg hne]
    cases h2 : (ChatService.sendMessage st.svc (jsTrim message) env).result <;> simp [h2]
  · intro hlen
    constructor
    · simp [jsSliceLast, hlen]
    · rw [jsSliceLast_map]
      unfold jsSliceLast
      rw [hlen]

def tenMessages : List ChatMessage :=
  (List.range 10).map fun i => mkUserMessage ("m" ++ toString i)

def tenChatState : ChatContextState :=
  { messages := tenMessages
    api := { isLoading := false, error := none, isConnected := true, sessionId := "session" }
    svc := ChatService.init 0 }

/-- An environment in which every fetch fails with the connectivity
`TypeError`, i.e. every attempt raises `NetworkError`. -/
def netFailEnv : Nat → AttemptEnv := fun n => ⟨2000 * n, 2000 * n + 10, false, .fetchTypeError⟩

/-- Witness for C7 at a concrete 10-message conversation. -/
theorem history_trimming_witness :
    ∃ req, (ChatProvider.sendMessage tenChatState "Tell me about skills" netFailEnv).2.request =
        some req ∧
      req.history = jsSliceLast 6 (tenChatState.messages.map fun m => (m.role, m.content)) ∧
      req.history = (jsSliceLast 6 tenChatState.messages).map (fun m => (m.role, m.content)) ∧
      (tenChatState.messages.length = 10 →
        req.history.length = 6 ∧
        req.history = (tenChatState.messages.drop 4).map fun m => (m.role, m.content)) :=
  history_trimming tenChatState "Tell me about skills" netFailEnv (by decide) (by decide)

/-- C6 as amended: when the transport client fails a non-greeting send with
error `e`, the store appends (after the user message) exactly one assistant
message flagged `isError: true`; but its content is the `message` of the
`error` state the closure captured before the send — the previous failure's
handler descriptor if one was showing, else the fixed apology — not in
general the handler `getErrorHandler e` of the error that was just raised.
That current handler is stored in the hook's `error` state instead; and
when `e` is `NetworkError` (or `ServiceUnavailableError`), `isConnected`
transitions to `false`. -/
theorem failure_appends_error_message (st : ChatContextState) (message : String)
    (env : Nat → AttemptEnv) (e : JsError) (hne : jsTrim message ≠ "")
    (hg : getGreetingResponse (jsTrim message) = none)
    (hf : (ChatService.sendMessage st.svc (jsTrim message) env).result = .error e) :
    (ChatProvider.sendMessage st message env).1.messages =
      st.messages ++ [mkUserMessage (jsTrim message), mkErrorMessage st.api.error] ∧
    (mkErrorMessage st.api.error).role = "assistant" ∧
    (mkErrorMessage st.api.error).isError = true ∧
    (mkErrorMessage st.api.error).content =
      (match st.api.error with
       | some ev => if ev.handler.message = "" then apologyText else ev.handler.message
       | none => apologyText) ∧
    (ChatProvider.sendMessage st message env).1.api.error =
      some { handler := getErrorHandler e, originalError := e } ∧
    ((e.code = some "NETWORK_ERROR" ∨ e.code = some "SERVICE_UNAVAILABLE") →
      (ChatProvider.sendMessage st message env).1.api.isConnected = false) := by
  unfold ChatProvider.sendMessage useApiClient.sendMessage
  rw [if_neg hne, hg]
  simp only [if_neg hne]
  simp only [hf]
  refine ⟨by simp, rfl, rfl, rfl, trivial, ?_⟩
  intro hcode
  simp [hcode]

/-- Witness for the amended C6: a first-ever send that exhausts its
attempts with `NetworkError`. -/
theorem failure_appends_error_message_witness :
    (ChatProvider.sendMessage emptyChatState "Tell me about skills" netFailEnv).1.messages =
      emptyChatState.messages ++
        [mkUserMessage (jsTrim "Tell me about skills"), mkErrorMessage emptyChatState.api.error] ∧
    (mkErrorMessage emptyChatState.api.error).role = "assistant" ∧
    (mkErrorMessage emptyChatState.api.error).isError = true ∧
    (mkErrorMessage emptyChatState.api.error).content =
      (match emptyChatState.api.error with
       | some ev => if ev.handler.message = "" then apologyText else ev.handler.message
       | none => apologyText) ∧
    (ChatProvider.sendMessage emptyChatState "Tell me about skills" netFailEnv).1.api.error =
      some { handler := getErrorHandler NetworkError, originalError := NetworkError } ∧
    ((NetworkError.code = some "NETWORK_ERROR" ∨ NetworkError.code = some "SERVICE_UNAVAILABLE") →
      (ChatProvider.sendMessage emptyChatState "Tell me about skills" netFailEnv).1.api.isConnected =
        false) :=
  failure_appends_error_message emptyChatState "Tell me about skills" netFailEnv NetworkError
    (by decide) (by decide) (by decide)

/-- Counterexample to C6 as stated: on the first-ever failing send (a
`NetworkError` on every attempt), the single `isError` assistant message
appended carries the fixed apology — NOT the `NetworkError` handler's
"trouble connecting" message, which only lands in the hook's `error`
state. -/
theorem errorMessage_not_handler_message :
    (ChatProvider.sendMessage emptyChatState "Tell me about skills" netFailEnv).1.messages =
      [mkUserMessage "Tell me about skills", mkErrorMessage none] ∧
    (mkErrorMessage none).isError = true ∧
    (mkErrorMessage none).content = apologyText ∧
    (ChatProvider.sendMessage emptyChatState "Tell me about skills" netFailEnv).1.api.error =
      some { handler := getErrorHandler NetworkError, originalError := NetworkError } ∧
    (mkErrorMessage none).content ≠ (getErrorHandler NetworkError).message := by
  exact ⟨by decide, rfl, rfl, by decide, by decide⟩
